import Mathlib

/-!
Shallow embedding of the imnotart-marketplace purchase-fulfillment pipeline:
the Stripe webhook handler (src/app/api/webhook/stripe/route.ts), the database
schema semantics it relies on (supabase-schema.sql), the download-redemption
endpoint (the route file handling GET /api/download/[token]), the download
email sender (src/lib/email.ts) and the gas-checked mint path of
ContractService (src/lib/contract).

Database tables become lists of row structures inside a `World`; each handler
becomes a function from a `World` (plus scripted fault outcomes for the
storage, SMTP and blockchain calls the code awaits) to a response and a new
`World`.  Timestamps are naturals (milliseconds); money amounts are kept in
cents so every field stays in `Nat`.
-/

namespace ImNotArt

/-- Payment status of a purchase row (`purchases.payment_status` in
supabase-schema.sql: pending, completed, failed, refunded). -/
inductive PayStatus
  | pending
  | completed
  | failed
  | refunded
  deriving Repr, DecidableEq

/-- A row of the `artworks` table, restricted to the columns the fulfillment
pipeline reads or writes.  `artistName` and `artistWallet` stand for the
`artists!inner` join used by the webhook's artwork lookup. -/
structure Artwork where
  id : Nat
  title : String
  artistName : String
  artistWallet : String
  currentEditions : Nat
  maxEditions : Nat
  tokenId : Option Nat
  imageUrl : String
  metadataUrl : String
  deriving Repr, DecidableEq

/-- A row of the `purchases` table.  `amountPaidCents` renders
`amount_paid_usd = (session.amount_total || 0) / 100` without leaving `Nat`:
the stored dollar amount is this field divided by 100. -/
structure Purchase where
  id : Nat
  artworkId : Nat
  buyerEmail : String
  buyerWallet : Option String
  paymentIntentId : String
  sessionId : String
  amountPaidCents : Nat
  paymentStatus : PayStatus
  nftMinted : Bool
  nftTokenId : Option Nat
  nftTxHash : Option String
  downloadSent : Bool
  deriving Repr, DecidableEq

/-- A row of the `download_tokens` table.  `expiresAt` and `usedAt` are
millisecond timestamps; `downloadCount` defaults to 0 and `maxDownloads` to 3
in the schema. -/
structure DownloadToken where
  id : Nat
  purchaseId : Nat
  token : String
  expiresAt : Nat
  usedAt : Option Nat
  downloadCount : Nat
  maxDownloads : Nat
  deriving Repr, DecidableEq

/-- The JSON body the webhook returns and records for idempotency:
`{ received: boolean, error?: string }`. -/
structure WResult where
  received : Bool
  error : Option String
  deriving Repr, DecidableEq

/-- A row of the `nft_minting_errors` table written by the detached mint job
for manual review. -/
structure MintError where
  purchaseId : Nat
  errorMessage : String
  sessionId : String
  deriving Repr, DecidableEq

/-- The parameters captured by `queueNFTMinting`; `artworkTokenId`,
`artistWallet`, `maxEditions` and `metadataUrl` are the snapshot of
`params.artwork` taken when the job was queued. -/
structure MintJob where
  purchaseId : Nat
  artworkId : Nat
  artworkTokenId : Option Nat
  artistWallet : String
  maxEditions : Nat
  metadataUrl : String
  buyerWalletAddress : String
  sessionId : String
  deriving Repr, DecidableEq

/-- Observable record of one invocation of the retrying email sender: who was
addressed, how many transport attempts were made, whether it delivered. -/
structure EmailAttempt where
  recipient : String
  attempts : Nat
  delivered : Bool
  deriving Repr, DecidableEq

/-- The state the pipeline reads and writes: the four schema tables plus the
`webhook_events` idempotency table, the in-process `processedEvents` cache
(the cache also stores an insertion timestamp, which feeds only the hourly TTL
sweeper and is not modelled), the mint-failure table, and observable logs of
email-send invocations and queued mint jobs.  `nextPurchaseId` and
`nextTokenRowId` model the SERIAL primary keys. -/
structure World where
  artworks : List Artwork
  purchases : List Purchase
  tokens : List DownloadToken
  webhookEvents : List (String × WResult)
  cache : List (String × WResult)
  mintErrors : List MintError
  emailLog : List EmailAttempt
  queuedMints : List MintJob
  nextPurchaseId : Nat
  nextTokenRowId : Nat
  deriving Repr, DecidableEq

/-- Row lookup by token string (`.eq('token', token).single()`). -/
def findToken (w : World) (tok : String) : Option DownloadToken :=
  w.tokens.find? (fun t => t.token == tok)

/-- Row lookup by purchase id. -/
def findPurchase (w : World) (pid : Nat) : Option Purchase :=
  w.purchases.find? (fun p => p.id == pid)

/-- Row lookup by artwork id (`.eq('id', artworkId).single()`). -/
def findArtwork (w : World) (aid : Nat) : Option Artwork :=
  w.artworks.find? (fun a => a.id == aid)

/-- The joined select of the download endpoint:
`download_tokens` with `purchase:purchases!inner(artwork:artworks!inner(*))`.
The row comes back only when the token, its purchase and that purchase's
artwork all exist; the inner joins otherwise make the `.single()` call fail. -/
def lookupTokenJoined (w : World) (tok : String) :
    Option (DownloadToken × Purchase × Artwork) :=
  match findToken w tok with
  | none => none
  | some t =>
    match findPurchase w t.purchaseId with
    | none => none
    | some p =>
      match findArtwork w p.artworkId with
      | none => none
      | some a => some (t, p, a)

/-- Responses of GET /api/download/[token]: 404 for an unknown token, 410 for
an expired one, 429 once the download limit is reached, otherwise a redirect
to the artwork's image URL. -/
inductive DownloadResponse
  | notFound
  | gone
  | tooManyDownloads
  | redirect (url : String)
  deriving Repr, DecidableEq

/-- HTTP status carried by each download response constructor
(`NextResponse.redirect` defaults to 307). -/
def DownloadResponse.status : DownloadResponse → Nat
  | .notFound => 404
  | .gone => 410
  | .tooManyDownloads => 429
  | .redirect _ => 307

/-- GET /api/download/[token]: verify the token via the joined select, reject
expired (`new Date(expires_at) < new Date()`) and exhausted
(`download_count >= max_downloads`) tokens, otherwise write back
`download_count = fetched + 1` and `used_at = used_at || now` for the row with
the fetched id and redirect to `artwork.image_url`.  `now` is the current time
in milliseconds. -/
def downloadGET (w : World) (tok : String) (now : Nat) :
    DownloadResponse × World :=
  match lookupTokenJoined w tok with
  | none => (.notFound, w)
  | some (t, _p, a) =>
    if t.expiresAt < now then (.gone, w)
    else if t.downloadCount ≥ t.maxDownloads then (.tooManyDownloads, w)
    else
      (.redirect a.imageUrl,
       { w with tokens := w.tokens.map (fun u =>
           if u.id = t.id then
             { u with downloadCount := t.downloadCount + 1,
                      usedAt := some (t.usedAt.getD now) }
           else u) })

/-- A whole sequence of redemption requests, each a token string together with
the time it arrives, folded through the download endpoint. -/
def runDownloads (w : World) (reqs : List (String × Nat)) : World :=
  reqs.foldl (fun acc r => (downloadGET acc r.1 r.2).2) w

/-- Outcome of one SMTP transport call (`transporter.sendMail`): the message is
delivered, or the transport raises an error. -/
inductive TransportOutcome
  | delivered
  | transportError
  deriving Repr, DecidableEq

/-- What one call to `sendDownloadEmail` does from its caller's point of view:
returns true, returns false, or throws. -/
inductive EmailOutcome
  | success
  | returnedFalse
  | threw
  deriving Repr, DecidableEq

/-- sendDownloadEmail (src/lib/email.ts): awaits `transporter.sendMail` inside
try/catch, returning true on delivery and false on any transport error.  It
never lets an exception escape. -/
def sendDownloadEmail (t : TransportOutcome) : Bool :=
  match t with
  | .delivered => true
  | .transportError => false

/-- Trace of one run of the retrying sender: the boolean it returns, the number
of `sendDownloadEmail` calls made, and the backoff waits (ms) it performed. -/
structure RetryTrace where
  result : Bool
  attempts : Nat
  waits : List Nat
  deriving Repr, DecidableEq

/-- The for-loop of sendDownloadEmailWithRetry (route.ts): `attempt` runs from
1 to `maxRetries`; a call that returns true exits with true; one that returns
false falls through to the next iteration with no wait; one that throws is
caught and, when `attempt < maxRetries`, is followed by a
`2 ^ attempt * 1000` ms backoff wait.  When the loop ends the function returns
false.  `fuel` is the number of loop iterations left (structurally
decreasing); `outcomes n` scripts what the n-th call to `sendDownloadEmail`
does. -/
def retryLoop (maxRetries : Nat) (outcomes : Nat → EmailOutcome) :
    Nat → Nat → List Nat → RetryTrace
  | 0, _, waits => { result := false, attempts := maxRetries, waits := waits }
  | fuel + 1, attempt, waits =>
    match outcomes attempt with
    | .success => { result := true, attempts := attempt, waits := waits }
    | .returnedFalse => retryLoop maxRetries outcomes fuel (attempt + 1) waits
    | .threw =>
      retryLoop maxRetries outcomes fuel (attempt + 1)
        (if attempt < maxRetries then waits ++ [2 ^ attempt * 1000] else waits)

/-- sendDownloadEmailWithRetry (route.ts 321-344) with its default
`maxRetries = 3`. -/
def sendDownloadEmailWithRetry (outcomes : Nat → EmailOutcome) : RetryTrace :=
  retryLoop 3 outcomes 3 1 []

/-- The outcomes the retry wrapper actually sees in the webhook, where each
attempt is a call to the real `sendDownloadEmail`: a boolean, never a throw. -/
def composedEmailOutcomes (transport : Nat → TransportOutcome) :
    Nat → EmailOutcome :=
  fun n => if sendDownloadEmail (transport n) then .success else .returnedFalse

/-- sendDownloadEmailWithRetry applied to the real sendDownloadEmail, as the
webhook composes them. -/
def sendDownloadEmailComposed (transport : Nat → TransportOutcome) : RetryTrace :=
  sendDownloadEmailWithRetry (composedEmailOutcomes transport)

/-- Scripted outcomes for the storage and transport operations one webhook
delivery awaits: `some msg` means the corresponding supabase call comes back
with an error whose `.message` is `msg`; `ledgerInsertFails` makes the
`webhook_events` insert throw (the code logs and swallows that); `transport`
scripts each SMTP attempt. -/
structure Faults where
  purchaseInsertError : Option String
  incrementError : Option String
  tokenInsertError : Option String
  ledgerInsertFails : Bool
  transport : Nat → TransportOutcome

/-- The checkout-session object as the webhook reads it: its id, payment
intent, `amount_total` (cents), and the metadata fields.  `artworkIdMeta` is
the parsed `metadata.artworkId`; the code coerces a missing or unparsable
value to 0 and treats 0 as missing. -/
structure Session where
  id : String
  paymentIntent : String
  amountTotal : Option Nat
  artworkIdMeta : Option Nat
  buyerEmail : Option String
  buyerWalletAddress : Option String
  deriving Repr, DecidableEq

/-- The event kinds the switch in processEventWithTransaction distinguishes. -/
inductive StripeEvent
  | checkoutSessionCompleted (session : Session)
  | paymentIntentPaymentFailed (paymentIntentId : String)
  | otherEvent (eventType : String)
  deriving Repr, DecidableEq

/-- The `{ received: true }` success body. -/
def WResult.okResult : WResult := { received := true, error := none }

/-- The body returned when session metadata is incomplete. -/
def missingMetadata : WResult :=
  { received := false, error := some "Missing required metadata" }

/-- increment_artwork_editions (supabase-schema.sql 98-107): an UPDATE guarded
by `current_editions < max_editions`.  When the guard excludes the row the
statement simply affects zero rows; the function still returns without any
error. -/
def incrementArtworkEditions (w : World) (artworkId : Nat) : World :=
  { w with artworks := w.artworks.map (fun a =>
      if a.id = artworkId ∧ a.currentEditions < a.maxEditions then
        { a with currentEditions := a.currentEditions + 1 }
      else a) }

/-- Deleting a purchase row (`.delete().eq('id', purchase.id)`).  In the
schema `download_tokens.purchase_id` is declared ON DELETE CASCADE, so the
purchase's download tokens disappear with it. -/
def deletePurchase (w : World) (pid : Nat) : World :=
  { w with purchases := w.purchases.filter (fun p => p.id != pid),
           tokens := w.tokens.filter (fun t => t.purchaseId != pid) }

/-- `.update({ download_sent: true }).eq('id', purchase.id)`. -/
def setDownloadSent (w : World) (pid : Nat) : World :=
  { w with purchases := w.purchases.map (fun p =>
      if p.id = pid then { p with downloadSent := true } else p) }

/-- 7 days in milliseconds: the token expiry added by
`expiresAt.setDate(expiresAt.getDate() + 7)`. -/
def sevenDaysMs : Nat := 7 * 24 * 60 * 60 * 1000

/-- processEventWithTransaction (route.ts 125-302).  `now` is the current time
in ms; `freshToken` stands for the random `dl_` string produced by
generateSecureToken; `f` scripts which awaited operations fail.  The outer
try/catch turns every thrown error into `{ received: false, error: message }`,
and the inner catch deletes the inserted purchase (rollback) before
rethrowing whenever `rollbackNeeded` is still set. -/
def processEventWithTransaction (w : World) (f : Faults) (now : Nat)
    (freshToken : String) (e : StripeEvent) : WResult × World :=
  match e with
  | .checkoutSessionCompleted session =>
    let artworkId := session.artworkIdMeta.getD 0
    match session.buyerEmail with
    | none => (missingMetadata, w)
    | some buyerEmail =>
      if artworkId = 0 then (missingMetadata, w)
      else if w.purchases.any (fun p => p.sessionId == session.id) then
        (WResult.okResult, w)
      else
        match f.purchaseInsertError with
        | some msg =>
          ({ received := false,
             error := some ("Error creating purchase: " ++ msg) }, w)
        | none =>
          let purchase : Purchase :=
            { id := w.nextPurchaseId
              artworkId := artworkId
              buyerEmail := buyerEmail
              buyerWallet := session.buyerWalletAddress
              paymentIntentId := session.paymentIntent
              sessionId := session.id
              amountPaidCents := session.amountTotal.getD 0
              paymentStatus := .completed
              nftMinted := false
              nftTokenId := none
              nftTxHash := none
              downloadSent := false }
          let w1 := { w with purchases := w.purchases ++ [purchase],
                             nextPurchaseId := w.nextPurchaseId + 1 }
          match f.incrementError with
          | some msg =>
            ({ received := false,
               error := some ("Error updating artwork editions: " ++ msg) },
             deletePurchase w1 purchase.id)
          | none =>
            let w2 := incrementArtworkEditions w1 artworkId
            match f.tokenInsertError with
            | some msg =>
              ({ received := false,
                 error := some ("Error creating download token: " ++ msg) },
               deletePurchase w2 purchase.id)
            | none =>
              let tokenRow : DownloadToken :=
                { id := w2.nextTokenRowId
                  purchaseId := purchase.id
                  token := freshToken
                  expiresAt := now + sevenDaysMs
                  usedAt := none
                  downloadCount := 0
                  maxDownloads := 3 }
              let w3 := { w2 with tokens := w2.tokens ++ [tokenRow],
                                  nextTokenRowId := w2.nextTokenRowId + 1 }
              match findArtwork w3 artworkId with
              | none =>
                ({ received := false, error := some "Artwork not found" },
                 deletePurchase w3 purchase.id)
              | some artwork =>
                let trace :=
                  sendDownloadEmailWithRetry (composedEmailOutcomes f.transport)
                let w4 := { w3 with emailLog := w3.emailLog ++
                  [{ recipient := buyerEmail, attempts := trace.attempts,
                     delivered := trace.result }] }
                let w5 :=
                  if trace.result then setDownloadSent w4 purchase.id else w4
                let w6 :=
                  match session.buyerWalletAddress with
                  | some wallet =>
                    { w5 with queuedMints := w5.queuedMints ++
                      [{ purchaseId := purchase.id
                         artworkId := artworkId
                         artworkTokenId := artwork.tokenId
                         artistWallet := artwork.artistWallet
                         maxEditions := artwork.maxEditions
                         metadataUrl := artwork.metadataUrl
                         buyerWalletAddress := wallet
                         sessionId := session.id }] }
                  | none => w5
                (WResult.okResult, w6)
  | .paymentIntentPaymentFailed pid =>
    (WResult.okResult,
     { w with purchases := w.purchases.map (fun p =>
         if p.paymentIntentId == pid then { p with paymentStatus := .failed }
         else p) })
  | .otherEvent _ => (WResult.okResult, w)

/-- One inbound webhook delivery: whether `stripe.webhooks.constructEvent`
accepts the signature, the optional replay-protection header, the event id and
the event body. -/
structure WebhookRequest where
  signatureValid : Bool
  idempotencyHeader : Option String
  eventId : String
  event : StripeEvent
  deriving Repr, DecidableEq

/-- What POST answers: the 400 signature-verification rejection, or the JSON
result body. -/
inductive WebhookResponse
  | signatureError
  | json (result : WResult)
  deriving Repr, DecidableEq

/-- First-match lookup in an idempotency ledger tier. -/
def lookupLedger (entries : List (String × WResult)) (key : String) :
    Option WResult :=
  match entries.find? (fun kv => kv.1 == key) with
  | some kv => some kv.2
  | none => none

/-- `Map.set` semantics for the in-process cache: replace an existing entry
for the key, otherwise append one. -/
def setLedger (entries : List (String × WResult)) (key : String) (r : WResult) :
    List (String × WResult) :=
  if entries.any (fun kv => kv.1 == key) then
    entries.map (fun kv => if kv.1 == key then (key, r) else kv)
  else entries ++ [(key, r)]

/-- checkProcessedEvent (route.ts 66-94): in-memory cache first, then the
`webhook_events` table, repopulating the cache on a database hit. -/
def checkProcessedEvent (w : World) (key : String) : Option WResult × World :=
  match lookupLedger w.cache key with
  | some r => (some r, w)
  | none =>
    match lookupLedger w.webhookEvents key with
    | some r => (some r, { w with cache := setLedger w.cache key r })
    | none => (none, w)

/-- markEventProcessed (route.ts 99-120): write the cache, then insert into
`webhook_events`; an insert failure is logged and swallowed so the webhook
response is unaffected. -/
def markEventProcessed (w : World) (f : Faults) (key : String) (r : WResult) :
    World :=
  let w1 := { w with cache := setLedger w.cache key r }
  if f.ledgerInsertFails then w1
  else { w1 with webhookEvents := w1.webhookEvents ++ [(key, r)] }

/-- POST /api/webhook/stripe (route.ts 22-61): verify the signature, derive
the event key from the idempotency header or the event id, short-circuit on a
ledger hit, otherwise process the event and record its result under the
key. -/
def POST (w : World) (f : Faults) (now : Nat) (freshToken : String)
    (req : WebhookRequest) : WebhookResponse × World :=
  if req.signatureValid = false then (.signatureError, w)
  else
    let eventKey := req.idempotencyHeader.getD req.eventId
    match checkProcessedEvent w eventKey with
    | (some r, w1) => (.json r, w1)
    | (none, w1) =>
      let rw := processEventWithTransaction w1 f now freshToken req.event
      (.json rw.1, markEventProcessed rw.2 f eventKey rw.1)

/-- Scripted outcomes of the two contract calls the detached mint job awaits:
`createTokenResult` is the token id `contractService.createToken` resolves to,
or the message it throws with; `mintTokenResult` likewise the tx hash of
`contractService.mintToken`. -/
structure MintFaults where
  createTokenResult : Except String Nat
  mintTokenResult : Except String String

/-- The body of the setTimeout callback in queueNFTMinting (route.ts 349-415):
when the queued artwork snapshot has no token id yet, create the contract
token and persist the id on the artwork row; then mint to the buyer and update
only the purchase's `nft_minted`, `nft_token_id` and `nft_tx_hash` columns;
any thrown error is caught and stored in `nft_minting_errors` for manual
review. -/
def runQueuedMint (w : World) (mf : MintFaults) (job : MintJob) : World :=
  let created : Except String (World × Nat) :=
    match job.artworkTokenId with
    | some tid => .ok (w, tid)
    | none =>
      match mf.createTokenResult with
      | .error msg => .error msg
      | .ok tid =>
        .ok ({ w with artworks := w.artworks.map (fun a =>
                 if a.id = job.artworkId then { a with tokenId := some tid }
                 else a) },
             tid)
  match created with
  | .error msg =>
    { w with mintErrors := w.mintErrors ++
        [{ purchaseId := job.purchaseId, errorMessage := msg,
           sessionId := job.sessionId }] }
  | .ok (w1, tid) =>
    match mf.mintTokenResult with
    | .error msg =>
      { w1 with mintErrors := w1.mintErrors ++
          [{ purchaseId := job.purchaseId, errorMessage := msg,
             sessionId := job.sessionId }] }
    | .ok txHash =>
      { w1 with purchases := w1.purchases.map (fun p =>
          if p.id = job.purchaseId then
            { p with nftMinted := true, nftTokenId := some tid,
                     nftTxHash := some txHash }
          else p) }

/-- The error message the mint job terminates with, if any: a throw from
createToken (only reached when the artwork has no token id yet) or from
mintToken. -/
def mintFailure (job : MintJob) (mf : MintFaults) : Option String :=
  match job.artworkTokenId, mf.createTokenResult with
  | none, .error msg => some msg
  | none, .ok _ =>
    match mf.mintTokenResult with
    | .error msg => some msg
    | .ok _ => none
  | some _, _ =>
    match mf.mintTokenResult with
    | .error msg => some msg
    | .ok _ => none

/-- ContractService.MAX_GAS_PRICE: `ethers.parseUnits('100', 'gwei')`,
in wei. -/
def MAX_GAS_PRICE : Nat := 100 * 1000000000

/-- Conversion used below for the 10 gwei / 1 gwei fee-data fallbacks. -/
def gweiToWei (g : Nat) : Nat := g * 1000000000

/-- The +20% gas-limit buffer of estimateGasWithBuffer,
`Math.floor(Number(estimatedGas) * 1.2)`, rendered exactly in `Nat`. -/
def gasWithBuffer (g : Nat) : Nat := g * 12 / 10

/-- The fee envelope estimateGasWithBuffer returns. -/
structure GasEstimate where
  estimatedGas : Nat
  gasPrice : Nat
  maxFeePerGas : Nat
  maxPriorityFeePerGas : Nat
  deriving Repr, DecidableEq

/-- `provider.getFeeData()`, each field possibly null. -/
structure FeeData where
  gasPrice : Option Nat
  maxFeePerGas : Option Nat
  maxPriorityFeePerGas : Option Nat
  deriving Repr, DecidableEq

/-- estimateGasWithBuffer (src/lib/contract): on success, the raw gas estimate
with the 20% buffer and the fee data with its 10 gwei / gasPrice / 1 gwei
fallbacks; when estimation throws, the fixed fallback envelope of 500000 gas
at 10 gwei. -/
def estimateGasWithBuffer (estimationSucceeds : Bool) (rawEstimate : Nat)
    (fd : FeeData) : GasEstimate :=
  if estimationSucceeds then
    let gasPrice := fd.gasPrice.getD (gweiToWei 10)
    { estimatedGas := gasWithBuffer rawEstimate
      gasPrice := gasPrice
      maxFeePerGas := fd.maxFeePerGas.getD gasPrice
      maxPriorityFeePerGas := fd.maxPriorityFeePerGas.getD (gweiToWei 1) }
  else
    { estimatedGas := 500000
      gasPrice := gweiToWei 10
      maxFeePerGas := gweiToWei 10
      maxPriorityFeePerGas := gweiToWei 1 }

/-- How mintNFTWithGasEstimation leaves the gas gate: the transaction is
submitted with this envelope, or the call throws "Gas price too high". -/
inductive MintSubmission
  | submitted (gasLimit maxFeePerGas maxPriorityFeePerGas : Nat)
  | gasPriceTooHigh
  deriving Repr, DecidableEq

/-- The gas-ceiling gate of mintNFTWithGasEstimation (src/lib/contract,
mintToken branch): when the estimated gasPrice exceeds MAX_GAS_PRICE the
priority fee is halved and the fee cap recomputed as
`gasPrice + priority / 2`; if that still exceeds the ceiling the call throws,
otherwise the transaction goes out with the adjusted envelope; within the
ceiling it goes out with the estimate unchanged.  The gas limit passed to the
contract call is always the estimate's (buffered) `estimatedGas`. -/
def mintGasGate (ge : GasEstimate) : MintSubmission :=
  if ge.gasPrice > MAX_GAS_PRICE then
    let reducedPriority := ge.maxPriorityFeePerGas / 2
    let reducedMaxFee := ge.gasPrice + reducedPriority
    if reducedMaxFee > MAX_GAS_PRICE then .gasPriceTooHigh
    else .submitted ge.estimatedGas reducedMaxFee reducedPriority
  else .submitted ge.estimatedGas ge.maxFeePerGas ge.maxPriorityFeePerGas

/-! Concrete fixtures used by the closed theorems and witnesses below. -/

/-- A delivery in which every awaited storage and transport call succeeds. -/
def noFaults : Faults :=
  { purchaseInsertError := none, incrementError := none,
    tokenInsertError := none, ledgerInsertFails := false,
    transport := fun _ => .delivered }

/-- A world with every table empty. -/
def emptyWorld : World :=
  { artworks := [], purchases := [], tokens := [], webhookEvents := [],
    cache := [], mintErrors := [], emailLog := [], queuedMints := [],
    nextPurchaseId := 1, nextTokenRowId := 1 }

/-- An artwork whose last edition is already taken: current = max = 1. -/
def soldOutArtwork : Artwork :=
  { id := 1, title := "Last Copy", artistName := "Ada",
    artistWallet := "0xa11ce", currentEditions := 1, maxEditions := 1,
    tokenId := none, imageUrl := "ipfs://img", metadataUrl := "ipfs://meta" }

/-- The sold-out artwork alone in an otherwise empty world. -/
def soldOutWorld : World := { emptyWorld with artworks := [soldOutArtwork] }

/-- A checkout session for the sold-out artwork. -/
def soldOutSession : Session :=
  { id := "cs_soldout", paymentIntent := "pi_soldout", amountTotal := some 5000,
    artworkIdMeta := some 1, buyerEmail := some "buyer",
    buyerWalletAddress := none }

/-- A world holding no artwork row at all, with fresh SERIAL counters. -/
def noArtworkWorld : World :=
  { emptyWorld with nextPurchaseId := 7, nextTokenRowId := 9 }

/-- A checkout session referencing artwork 42, which noArtworkWorld lacks. -/
def c3Session : Session :=
  { id := "cs_noart", paymentIntent := "pi_noart", amountTotal := some 1000,
    artworkIdMeta := some 42, buyerEmail := some "x",
    buyerWalletAddress := some "0xab" }

/-! Theorems, one per claim of the specification review. -/

/-- C1: the claim says a failing edition increment — the sold-out case
`current = max` included — deletes the inserted Purchase and yields a typed
failure.  The code contradicts the spec's stated intent: the
increment_artwork_editions UPDATE is guarded by `current < max`, so on a
sold-out artwork it affects zero rows and returns without error; the webhook
therefore keeps the Purchase, hands out a download token, and answers
`{ received: true }`, while `current_editions` stays pinned at `max`.  This
theorem evaluates the pipeline at that failing input: an orphan completed
Purchase without a reserved edition slot remains. -/
theorem C1_sold_out_is_silently_accepted :
    (processEventWithTransaction soldOutWorld noFaults 0 "dl_tok"
        (.checkoutSessionCompleted soldOutSession)).1 = WResult.okResult ∧
    ((processEventWithTransaction soldOutWorld noFaults 0 "dl_tok"
        (.checkoutSessionCompleted soldOutSession)).2.purchases.map
          Purchase.sessionId) = ["cs_soldout"] ∧
    (processEventWithTransaction soldOutWorld noFaults 0 "dl_tok"
        (.checkoutSessionCompleted soldOutSession)).2.artworks =
      [soldOutArtwork] ∧
    (processEventWithTransaction soldOutWorld noFaults 0 "dl_tok"
        (.checkoutSessionCompleted soldOutSession)).2.tokens.length = 1 := by
  decide

/-- C3 counterexample: in this run the purchase insert, the edition increment
and the download-token insert all succeed — the SERIAL counters advance from
7 to 8 and from 9 to 10 — and only then does the artwork lookup fail; the
rollback branch still deletes the inserted Purchase.  So a failure occurring
after the DownloadToken row exists does delete the Purchase, refuting the
claim's "once the DownloadToken has been created, no later failure deletes
the Purchase". -/
theorem C3_counterexample_artwork_lookup_deletes :
    (processEventWithTransaction noArtworkWorld noFaults 0 "dl_c3"
        (.checkoutSessionCompleted c3Session)).1 =
      { received := false, error := some "Artwork not found" } ∧
    (processEventWithTransaction noArtworkWorld noFaults 0 "dl_c3"
        (.checkoutSessionCompleted c3Session)).2.purchases = [] ∧
    (processEventWithTransaction noArtworkWorld noFaults 0 "dl_c3"
        (.checkoutSessionCompleted c3Session)).2.nextPurchaseId = 8 ∧
    (processEventWithTransaction noArtworkWorld noFaults 0 "dl_c3"
        (.checkoutSessionCompleted c3Session)).2.nextTokenRowId = 10 := by
  decide

/-- C4: a delivery whose signature verification fails is answered with the
400 rejection before anything else runs: the returned world is the input
world, so no ledger read or write, no purchase, no increment, no token, no
email and no mint queuing happened. -/
theorem C4_invalid_signature_no_side_effects (w : World) (f : Faults)
    (now : Nat) (freshToken : String) (req : WebhookRequest)
    (h : req.signatureValid = false) :
    POST w f now freshToken req = (.signatureError, w) := by
  simp [POST, h]

/-- C4 witness: the theorem applied to a concrete unsigned delivery. -/
theorem C4_witness :
    POST soldOutWorld noFaults 0 "dl_w"
        { signatureValid := false, idempotencyHeader := none,
          eventId := "evt_w", event := .checkoutSessionCompleted soldOutSession }
      = (.signatureError, soldOutWorld) :=
  C4_invalid_signature_no_side_effects soldOutWorld noFaults 0 "dl_w" _ rfl

/-- C8: within the ceiling the mint transaction is submitted with the
buffered gas limit and the unadjusted fee fields; and the call fails with the
gas-price-too-high error exactly when the estimated gasPrice exceeds the
100 gwei ceiling and the reduced-fee envelope `gasPrice + priority / 2`
computed by the single retry still exceeds it. -/
theorem C8_gas_ceiling_gate :
    (∀ (rawEstimate : Nat) (fd : FeeData),
      (estimateGasWithBuffer true rawEstimate fd).gasPrice ≤ MAX_GAS_PRICE →
      mintGasGate (estimateGasWithBuffer true rawEstimate fd) =
        .submitted (gasWithBuffer rawEstimate)
          (estimateGasWithBuffer true rawEstimate fd).maxFeePerGas
          (estimateGasWithBuffer true rawEstimate fd).maxPriorityFeePerGas) ∧
    (∀ ge : GasEstimate,
      mintGasGate ge = .gasPriceTooHigh ↔
        (MAX_GAS_PRICE < ge.gasPrice ∧
         MAX_GAS_PRICE < ge.gasPrice + ge.maxPriorityFeePerGas / 2)) := by
  constructor
  · intro rawEstimate fd h
    unfold mintGasGate
    rw [if_neg (by omega)]
    simp [estimateGasWithBuffer]
  · intro ge
    unfold mintGasGate
    by_cases h1 : ge.gasPrice > MAX_GAS_PRICE
    · by_cases h2 :
        ge.gasPrice + ge.maxPriorityFeePerGas / 2 > MAX_GAS_PRICE
      · simp [h1, h2]
      · simp [h1, h2]
    · simp [h1]

/-- C8 witness: a 1000-gas estimate with null fee data falls back to 10 gwei,
which is within the ceiling, so the theorem yields a submission with the
20%-buffered limit of 1200 gas; and a 200 gwei estimate is rejected. -/
theorem C8_witness :
    mintGasGate (estimateGasWithBuffer true 1000
        { gasPrice := none, maxFeePerGas := none,
          maxPriorityFeePerGas := none }) =
      .submitted (gasWithBuffer 1000)
        (estimateGasWithBuffer true 1000
          { gasPrice := none, maxFeePerGas := none,
            maxPriorityFeePerGas := none }).maxFeePerGas
        (estimateGasWithBuffer true 1000
          { gasPrice := none, maxFeePerGas := none,
            maxPriorityFeePerGas := none }).maxPriorityFeePerGas ∧
    mintGasGate { estimatedGas := 1200, gasPrice := 200 * 1000000000,
                  maxFeePerGas := 200 * 1000000000,
                  maxPriorityFeePerGas := 2 * 1000000000 } =
      .gasPriceTooHigh := by
  constructor
  · exact C8_gas_ceiling_gate.1 1000
      { gasPrice := none, maxFeePerGas := none, maxPriorityFeePerGas := none }
      (by decide)
  · exact (C8_gas_ceiling_gate.2
      { estimatedGas := 1200, gasPrice := 200 * 1000000000,
        maxFeePerGas := 200 * 1000000000,
        maxPriorityFeePerGas := 2 * 1000000000 }).mpr (by decide)

/-- C9 counterexample: a transport that fails on every attempt — the
transient-failure scenario of the claim — drives the composed sender through
its 3 attempts with NO backoff wait at all and a false return:
sendDownloadEmail catches the transport error and returns false, and the
false-return path of the retry loop continues immediately, so the claimed
2s/4s/8s waits between transiently failing attempts never happen. -/
theorem C9_counterexample_no_backoff_on_transport_failure :
    (sendDownloadEmailComposed (fun _ => .transportError)).attempts = 3 ∧
    (sendDownloadEmailComposed (fun _ => .transportError)).result = false ∧
    (sendDownloadEmailComposed (fun _ => .transportError)).waits = [] := by
  decide

/-- C9 (amended): the retrying sender makes at most 3 attempts, returns true
exactly when one of those attempts returns true (exiting at the first
success), and returns false after all attempts fail; being a total function
into a trace, it propagates no exception.  Backoff only follows a THROWN
attempt other than the last, so the possible wait sequence is a subsequence
of [2000 ms, 4000 ms] — never 8 s — and because the real sendDownloadEmail
converts every transport error into a false return, the composed sender
performs no backoff wait whatsoever. -/
theorem C9_amended_email_retry (outcomes : Nat → EmailOutcome) :
    (sendDownloadEmailWithRetry outcomes).attempts ≤ 3 ∧
    ((sendDownloadEmailWithRetry outcomes).result = true ↔
      (outcomes 1 = .success ∨ outcomes 2 = .success ∨
       outcomes 3 = .success)) ∧
    (sendDownloadEmailWithRetry outcomes).waits.Sublist [2000, 4000] ∧
    (∀ transport : Nat → TransportOutcome,
      (sendDownloadEmailComposed transport).waits = []) := by
  refine ⟨?_, ?_, ?_, ?_⟩
  · rcases h1 : outcomes 1 <;> rcases h2 : outcomes 2 <;>
      rcases h3 : outcomes 3 <;>
      simp [sendDownloadEmailWithRetry, retryLoop, h1, h2, h3]
  · rcases h1 : outcomes 1 <;> rcases h2 : outcomes 2 <;>
      rcases h3 : outcomes 3 <;>
      simp [sendDownloadEmailWithRetry, retryLoop, h1, h2, h3]
  · rcases h1 : outcomes 1 <;> rcases h2 : outcomes 2 <;>
      rcases h3 : outcomes 3 <;>
      simp [sendDownloadEmailWithRetry, retryLoop, h1, h2, h3]
  · intro transport
    rcases t1 : transport 1 <;> rcases t2 : transport 2 <;>
      rcases t3 : transport 3 <;>
      simp [sendDownloadEmailComposed, composedEmailOutcomes,
        sendDownloadEmail, sendDownloadEmailWithRetry, retryLoop, t1, t2, t3]

/-- C9 witness: the amended theorem applied to the always-throwing outcome
script: at most 3 attempts and waits within the 2s-then-4s schedule. -/
theorem C9_witness :
    (sendDownloadEmailWithRetry (fun _ => .threw)).attempts ≤ 3 ∧
    (sendDownloadEmailWithRetry (fun _ => .threw)).waits.Sublist
      [2000, 4000] := by
  have h := C9_amended_email_retry (fun _ => .threw)
  exact ⟨h.1, h.2.2.1⟩

/-- A miss reported by checkProcessedEvent means both ledger tiers missed and
the world came back unchanged. -/
theorem checkProcessedEvent_eq_none (w : World) (k : String)
    (h : (checkProcessedEvent w k).1 = none) :
    checkProcessedEvent w k = (none, w) ∧
    lookupLedger w.cache k = none ∧
    lookupLedger w.webhookEvents k = none := by
  unfold checkProcessedEvent at h ⊢
  rcases hc : lookupLedger w.cache k with _ | r
  · rcases hd : lookupLedger w.webhookEvents k with _ | r
    · simp [hc, hd]
    · simp [hc, hd] at h
  · simp [hc] at h

/-- checkProcessedEvent touches at most the in-process cache. -/
theorem checkProcessedEvent_frame (w : World) (k : String) :
    (checkProcessedEvent w k).2.purchases = w.purchases ∧
    (checkProcessedEvent w k).2.tokens = w.tokens ∧
    (checkProcessedEvent w k).2.artworks = w.artworks ∧
    (checkProcessedEvent w k).2.emailLog = w.emailLog ∧
    (checkProcessedEvent w k).2.queuedMints = w.queuedMints ∧
    (checkProcessedEvent w k).2.webhookEvents = w.webhookEvents := by
  unfold checkProcessedEvent
  rcases hc : lookupLedger w.cache k with _ | r
  · rcases hd : lookupLedger w.webhookEvents k with _ | r <;> simp [hc, hd]
  · simp [hc]

/-- markEventProcessed touches only the cache and the webhook_events
table. -/
theorem markEventProcessed_frame (w : World) (f : Faults) (k : String)
    (r : WResult) :
    (markEventProcessed w f k r).purchases = w.purchases ∧
    (markEventProcessed w f k r).tokens = w.tokens ∧
    (markEventProcessed w f k r).artworks = w.artworks ∧
    (markEventProcessed w f k r).emailLog = w.emailLog ∧
    (markEventProcessed w f k r).queuedMints = w.queuedMints := by
  unfold markEventProcessed
  by_cases hf : f.ledgerInsertFails <;> simp [hf]

/-- C2: (a) when the idempotency ledger — cache tier or durable tier —
already records a result for the delivery's event key, POST returns that
recorded payload unchanged and neither the purchases, the download tokens,
the artworks (so no edition increment), the email log, the queued mint jobs
nor the durable ledger change; (b) independently, when the key is fresh but a
Purchase row already exists for the session id, processing short-circuits
with the `{ received: true }` payload — the payload the first successful
delivery recorded — again creating no purchase, token, increment, email or
mint job. -/
theorem C2_redelivery_is_effect_free (w : World) (f : Faults) (now : Nat)
    (freshToken : String) (req : WebhookRequest)
    (hsig : req.signatureValid = true) :
    (∀ r : WResult,
      (checkProcessedEvent w (req.idempotencyHeader.getD req.eventId)).1 =
          some r →
      (POST w f now freshToken req).1 = .json r ∧
      (POST w f now freshToken req).2.purchases = w.purchases ∧
      (POST w f now freshToken req).2.tokens = w.tokens ∧
      (POST w f now freshToken req).2.artworks = w.artworks ∧
      (POST w f now freshToken req).2.emailLog = w.emailLog ∧
      (POST w f now freshToken req).2.queuedMints = w.queuedMints ∧
      (POST w f now freshToken req).2.webhookEvents = w.webhookEvents) ∧
    (∀ s : Session, req.event = .checkoutSessionCompleted s →
      (checkProcessedEvent w (req.idempotencyHeader.getD req.eventId)).1 =
          none →
      s.buyerEmail ≠ none →
      s.artworkIdMeta.getD 0 ≠ 0 →
      w.purchases.any (fun p => p.sessionId == s.id) = true →
      (POST w f now freshToken req).1 = .json WResult.okResult ∧
      (POST w f now freshToken req).2.purchases = w.purchases ∧
      (POST w f now freshToken req).2.tokens = w.tokens ∧
      (POST w f now freshToken req).2.artworks = w.artworks ∧
      (POST w f now freshToken req).2.emailLog = w.emailLog ∧
      (POST w f now freshToken req).2.queuedMints = w.queuedMints) := by
  constructor
  · intro r hr
    have hframe :=
      checkProcessedEvent_frame w (req.idempotencyHeader.getD req.eventId)
    rcases hcp : checkProcessedEvent w (req.idempotencyHeader.getD req.eventId)
      with ⟨o, w1⟩
    rw [hcp] at hr hframe
    cases o with
    | none => simp at hr
    | some r0 =>
      simp only [Option.some.injEq] at hr
      subst hr
      have hpost : POST w f now freshToken req = (.json r0, w1) := by
        unfold POST
        rw [if_neg (by simp [hsig])]
        simp only [hcp]
      rw [hpost]
      exact ⟨rfl, hframe.1, hframe.2.1, hframe.2.2.1, hframe.2.2.2.1,
        hframe.2.2.2.2.1, hframe.2.2.2.2.2⟩
  · intro s hevt hnone hbe hid hany
    obtain ⟨hcp, hcache, hdb⟩ :=
      checkProcessedEvent_eq_none w (req.idempotencyHeader.getD req.eventId)
        hnone
    rcases hbem : s.buyerEmail with _ | be
    · exact absurd hbem hbe
    · have hproc : processEventWithTransaction w f now freshToken req.event =
          (WResult.okResult, w) := by
        rw [hevt]
        simp [processEventWithTransaction, hbem, hid, hany]
      have hm := markEventProcessed_frame w f
        (req.idempotencyHeader.getD req.eventId) WResult.okResult
      have hpost : POST w f now freshToken req =
          (.json WResult.okResult,
           markEventProcessed w f (req.idempotencyHeader.getD req.eventId)
             WResult.okResult) := by
        unfold POST
        rw [if_neg (by simp [hsig])]
        simp only [hcp, hproc]
      rw [hpost]
      exact ⟨rfl, hm.1, hm.2.1, hm.2.2.1, hm.2.2.2.1, hm.2.2.2.2⟩

/-- A purchase row recorded against session `cs_dup`. -/
def c2Purchase : Purchase :=
  { id := 1, artworkId := 1, buyerEmail := "x", buyerWallet := none,
    paymentIntentId := "pi_d", sessionId := "cs_dup", amountPaidCents := 5000,
    paymentStatus := .completed, nftMinted := false, nftTokenId := none,
    nftTxHash := none, downloadSent := true }

/-- A world after one successful delivery: the ledger holds `key_seen` and
the purchases table holds the `cs_dup` purchase. -/
def c2World : World :=
  { emptyWorld with
    artworks := [soldOutArtwork], purchases := [c2Purchase],
    webhookEvents := [("key_seen", WResult.okResult)], nextPurchaseId := 2 }

/-- A redelivery carrying the already-recorded idempotency key. -/
def c2ReqA : WebhookRequest :=
  { signatureValid := true, idempotencyHeader := some "key_seen",
    eventId := "evt_a", event := .otherEvent "charge.updated" }

/-- The original checkout session, redelivered. -/
def c2SessionDup : Session :=
  { id := "cs_dup", paymentIntent := "pi_d", amountTotal := some 5000,
    artworkIdMeta := some 1, buyerEmail := some "x",
    buyerWalletAddress := none }

/-- A redelivery with a fresh key but the already-purchased session id. -/
def c2ReqB : WebhookRequest :=
  { signatureValid := true, idempotencyHeader := none, eventId := "evt_b",
    event := .checkoutSessionCompleted c2SessionDup }

/-- C2 witness: the theorem applied to a concrete recorded key and to a
concrete duplicated session. -/
theorem C2_witness :
    (POST c2World noFaults 0 "dl" c2ReqA).1 = .json WResult.okResult ∧
    (POST c2World noFaults 0 "dl" c2ReqA).2.purchases = c2World.purchases ∧
    (POST c2World noFaults 0 "dl" c2ReqB).1 = .json WResult.okResult ∧
    (POST c2World noFaults 0 "dl" c2ReqB).2.purchases = c2World.purchases ∧
    (POST c2World noFaults 0 "dl" c2ReqB).2.tokens = c2World.tokens := by
  refine ⟨?_, ?_, ?_, ?_, ?_⟩
  · exact ((C2_redelivery_is_effect_free c2World noFaults 0 "dl" c2ReqA
      rfl).1 WResult.okResult (by decide)).1
  · exact ((C2_redelivery_is_effect_free c2World noFaults 0 "dl" c2ReqA
      rfl).1 WResult.okResult (by decide)).2.1
  · exact ((C2_redelivery_is_effect_free c2World noFaults 0 "dl" c2ReqB
      rfl).2 c2SessionDup rfl (by decide) (by decide) (by decide)
      (by decide)).1
  · exact ((C2_redelivery_is_effect_free c2World noFaults 0 "dl" c2ReqB
      rfl).2 c2SessionDup rfl (by decide) (by decide) (by decide)
      (by decide)).2.1
  · exact ((C2_redelivery_is_effect_free c2World noFaults 0 "dl" c2ReqB
      rfl).2 c2SessionDup rfl (by decide) (by decide) (by decide)
      (by decide)).2.2.1

/-- When a key misses in a ledger tier, no entry of that tier bears it. -/
theorem lookupLedger_none_any_false (l : List (String × WResult)) (k : String)
    (h : lookupLedger l k = none) : l.any (fun kv => kv.1 == k) = false := by
  unfold lookupLedger at h
  rcases hf : l.find? (fun kv => kv.1 == k) with _ | kv
  · exact List.any_eq_false.mpr (List.find?_eq_none.mp hf)
  · simp [hf] at h

/-- Appending a record under a previously missing key makes the lookup
return it. -/
theorem lookupLedger_append_self (l : List (String × WResult)) (k : String)
    (r : WResult) (h : lookupLedger l k = none) :
    lookupLedger (l ++ [(k, r)]) k = some r := by
  unfold lookupLedger at h ⊢
  rcases hf : l.find? (fun kv => kv.1 == k) with _ | kv
  · rw [List.find?_append, hf]
    simp
  · simp [hf] at h

/-- C10: a checkout event whose session metadata lacks the artwork id or the
buyer email is answered with the `Missing required metadata` failure and
produces no purchase, no edition increment, no download token, no email
attempt and no queued mint; the failure is itself recorded in the idempotency
ledger under the event key (durable tier included, when its insert does not
fault), so redelivering the same key afterwards — under any faults and
times — returns the recorded failure without reprocessing. -/
theorem C10_missing_metadata_failure_recorded (w : World) (f f2 : Faults)
    (now now2 : Nat) (tok tok2 : String) (req : WebhookRequest) (s : Session)
    (hsig : req.signatureValid = true)
    (hevt : req.event = .checkoutSessionCompleted s)
    (hmiss : s.artworkIdMeta.getD 0 = 0 ∨ s.buyerEmail = none)
    (hnew : (checkProcessedEvent w
      (req.idempotencyHeader.getD req.eventId)).1 = none)
    (hledger : f.ledgerInsertFails = false) :
    (POST w f now tok req).1 = .json missingMetadata ∧
    (POST w f now tok req).2.purchases = w.purchases ∧
    (POST w f now tok req).2.tokens = w.tokens ∧
    (POST w f now tok req).2.artworks = w.artworks ∧
    (POST w f now tok req).2.emailLog = w.emailLog ∧
    (POST w f now tok req).2.queuedMints = w.queuedMints ∧
    (POST w f now tok req).2.webhookEvents =
      w.webhookEvents ++
        [(req.idempotencyHeader.getD req.eventId, missingMetadata)] ∧
    POST ((POST w f now tok req).2) f2 now2 tok2 req =
      (.json missingMetadata, (POST w f now tok req).2) := by
  obtain ⟨hcp, hcache, hdb⟩ :=
    checkProcessedEvent_eq_none w (req.idempotencyHeader.getD req.eventId) hnew
  have hproc : processEventWithTransaction w f now tok req.event =
      (missingMetadata, w) := by
    rw [hevt]
    rcases hbem : s.buyerEmail with _ | be
    · simp [processEventWithTransaction, hbem]
    · rcases hmiss with haid | hbe2
      · simp [processEventWithTransaction, hbem, haid]
      · rw [hbem] at hbe2
        cases hbe2
  have hpost : POST w f now tok req =
      (.json missingMetadata,
       markEventProcessed w f (req.idempotencyHeader.getD req.eventId)
         missingMetadata) := by
    unfold POST
    rw [if_neg (by simp [hsig])]
    simp only [hcp, hproc]
  have hm := markEventProcessed_frame w f
    (req.idempotencyHeader.getD req.eventId) missingMetadata
  have hweb : (markEventProcessed w f
      (req.idempotencyHeader.getD req.eventId) missingMetadata).webhookEvents =
      w.webhookEvents ++
        [(req.idempotencyHeader.getD req.eventId, missingMetadata)] := by
    unfold markEventProcessed
    simp [hledger]
  have hcacheHit : lookupLedger (markEventProcessed w f
      (req.idempotencyHeader.getD req.eventId) missingMetadata).cache
      (req.idempotencyHeader.getD req.eventId) = some missingMetadata := by
    have hset : setLedger w.cache (req.idempotencyHeader.getD req.eventId)
        missingMetadata =
        w.cache ++ [(req.idempotencyHeader.getD req.eventId,
          missingMetadata)] := by
      unfold setLedger
      rw [lookupLedger_none_any_false w.cache _ hcache]
      simp
    have hcacheEq : (markEventProcessed w f
        (req.idempotencyHeader.getD req.eventId) missingMetadata).cache =
        setLedger w.cache (req.idempotencyHeader.getD req.eventId)
          missingMetadata := by
      unfold markEventProcessed
      by_cases hlf : f.ledgerInsertFails <;> simp [hlf]
    rw [hcacheEq, hset]
    exact lookupLedger_append_self w.cache _ _ hcache
  have hredeliver : POST (markEventProcessed w f
      (req.idempotencyHeader.getD req.eventId) missingMetadata) f2 now2 tok2
      req =
      (.json missingMetadata,
       markEventProcessed w f (req.idempotencyHeader.getD req.eventId)
         missingMetadata) := by
    have hcp2 : checkProcessedEvent (markEventProcessed w f
        (req.idempotencyHeader.getD req.eventId) missingMetadata)
        (req.idempotencyHeader.getD req.eventId) =
        (some missingMetadata,
         markEventProcessed w f (req.idempotencyHeader.getD req.eventId)
           missingMetadata) := by
      unfold checkProcessedEvent
      rw [hcacheHit]
    unfold POST
    rw [if_neg (by simp [hsig])]
    simp only [hcp2]
  rw [hpost]
  exact ⟨rfl, hm.1, hm.2.1, hm.2.2.1, hm.2.2.2.1, hm.2.2.2.2, hweb,
    hredeliver⟩

/-- A checkout session with no buyer email in its metadata. -/
def c10Session : Session :=
  { id := "cs_meta", paymentIntent := "pi_meta", amountTotal := some 100,
    artworkIdMeta := some 1, buyerEmail := none, buyerWalletAddress := none }

/-- A signed delivery of the metadata-lacking session. -/
def c10Req : WebhookRequest :=
  { signatureValid := true, idempotencyHeader := none, eventId := "evt_meta",
    event := .checkoutSessionCompleted c10Session }

/-- C10 witness: the theorem applied to a concrete metadata-lacking
delivery into the empty world, and its redelivery. -/
theorem C10_witness :
    (POST emptyWorld noFaults 0 "dl" c10Req).1 = .json missingMetadata ∧
    (POST emptyWorld noFaults 0 "dl" c10Req).2.purchases =
      emptyWorld.purchases ∧
    POST ((POST emptyWorld noFaults 0 "dl" c10Req).2) noFaults 1 "dl2"
        c10Req =
      (.json missingMetadata, (POST emptyWorld noFaults 0 "dl" c10Req).2) := by
  have h := C10_missing_metadata_failure_recorded emptyWorld noFaults noFaults
    0 1 "dl" "dl2" c10Req c10Session rfl rfl (Or.inr rfl) (by decide) rfl
  exact ⟨h.1, h.2.1, h.2.2.2.2.2.2.2⟩

/-- The token returned by the joined lookup is a row of the table. -/
theorem mem_of_lookupTokenJoined (w : World) (tok : String)
    (t : DownloadToken) (p : Purchase) (a : Artwork)
    (h : lookupTokenJoined w tok = some (t, p, a)) : t ∈ w.tokens := by
  unfold lookupTokenJoined at h
  rcases hf : findToken w tok with _ | t0
  · simp only [hf] at h
    exact Option.noConfusion h
  · simp only [hf] at h
    rcases hp : findPurchase w t0.purchaseId with _ | p0
    · simp only [hp] at h
      exact Option.noConfusion h
    · simp only [hp] at h
      rcases ha : findArtwork w p0.artworkId with _ | a0
      · simp only [ha] at h
        exact Option.noConfusion h
      · simp only [ha, Option.some.injEq, Prod.mk.injEq] at h
        obtain ⟨h1, -, -⟩ := h
        subst h1
        exact List.mem_of_find?_eq_some hf

/-- One redemption request preserves the count invariant and the
distinctness of the token row ids. -/
theorem downloadGET_preserves (w : World) (tok : String) (now : Nat)
    (hinv : ∀ t ∈ w.tokens, t.downloadCount ≤ t.maxDownloads)
    (hnd : (w.tokens.map DownloadToken.id).Nodup) :
    (∀ t ∈ ((downloadGET w tok now).2).tokens,
      t.downloadCount ≤ t.maxDownloads) ∧
    (((downloadGET w tok now).2).tokens.map DownloadToken.id).Nodup := by
  unfold downloadGET
  rcases hl : lookupTokenJoined w tok with _ | ⟨t, p, a⟩
  · exact ⟨hinv, hnd⟩
  · have htmem := mem_of_lookupTokenJoined w tok t p a hl
    by_cases hexp : t.expiresAt < now
    · simp only [hexp, if_true]
      exact ⟨hinv, hnd⟩
    · by_cases hcnt : t.downloadCount ≥ t.maxDownloads
      · simp only [hexp, hcnt, if_false, if_true]
        exact ⟨hinv, hnd⟩
      · simp only [hexp, hcnt, if_false]
        constructor
        · intro u hu
          obtain ⟨v, hv, rfl⟩ := List.mem_map.mp hu
          by_cases hid : v.id = t.id
          · have hveq : v = t := List.inj_on_of_nodup_map hnd hv htmem hid
            subst hveq
            simp only [hid, if_true]
            omega
          · simp only [hid, if_false]
            exact hinv v hv
        · rw [List.map_map]
          have hsame : w.tokens.map (DownloadToken.id ∘ fun u =>
              if u.id = t.id then
                { u with downloadCount := t.downloadCount + 1,
                         usedAt := some (t.usedAt.getD now) }
              else u) = w.tokens.map DownloadToken.id := by
            apply List.map_congr_left
            intro u _
            by_cases hid : u.id = t.id <;> simp [hid]
          rw [hsame]
          exact hnd

/-- The count invariant and id-distinctness persist through any request
sequence. -/
theorem runDownloads_preserves (reqs : List (String × Nat)) :
    ∀ w : World,
      (∀ t ∈ w.tokens, t.downloadCount ≤ t.maxDownloads) →
      (w.tokens.map DownloadToken.id).Nodup →
      (∀ t ∈ (runDownloads w reqs).tokens,
        t.downloadCount ≤ t.maxDownloads) ∧
      ((runDownloads w reqs).tokens.map DownloadToken.id).Nodup := by
  induction reqs with
  | nil =>
    intro w hinv hnd
    exact ⟨hinv, hnd⟩
  | cons r rest ih =>
    intro w hinv hnd
    have hstep := downloadGET_preserves w r.1 r.2 hinv hnd
    have hrest := ih ((downloadGET w r.1 r.2).2) hstep.1 hstep.2
    simpa [runDownloads] using hrest

/-- C5: over any world whose download counters respect their limits and
whose token row ids are distinct (the SERIAL primary key), no sequence of
redemption requests ever pushes a `download_count` above `max_downloads`;
and a redemption arriving strictly after a token's expiry time fails with
Gone and mutates nothing, no matter how many downloads remain. -/
theorem C5_download_limit_and_expiry_invariant (w : World)
    (hinv : ∀ t ∈ w.tokens, t.downloadCount ≤ t.maxDownloads)
    (hnd : (w.tokens.map DownloadToken.id).Nodup) :
    (∀ reqs : List (String × Nat), ∀ t ∈ (runDownloads w reqs).tokens,
      t.downloadCount ≤ t.maxDownloads) ∧
    (∀ (tok : String) (now : Nat) (t : DownloadToken) (p : Purchase)
        (a : Artwork), lookupTokenJoined w tok = some (t, p, a) →
      t.expiresAt < now → downloadGET w tok now = (.gone, w)) := by
  constructor
  · intro reqs
    exact (runDownloads_preserves reqs w hinv hnd).1
  · intro tok now t p a hl hexp
    unfold downloadGET
    simp [hl, hexp]

/-- An artwork for the download fixtures. -/
def dlArtwork : Artwork :=
  { id := 3, title := "Wave", artistName := "Bo", artistWallet := "0xb",
    currentEditions := 1, maxEditions := 3, tokenId := none,
    imageUrl := "ipfs://wave", metadataUrl := "ipfs://wavem" }

/-- The purchase owning the download tokens below. -/
def dlPurchase : Purchase :=
  { id := 5, artworkId := 3, buyerEmail := "y", buyerWallet := none,
    paymentIntentId := "pi_dl", sessionId := "cs_dl", amountPaidCents := 100,
    paymentStatus := .completed, nftMinted := false, nftTokenId := none,
    nftTxHash := none, downloadSent := true }

/-- A live token with all three downloads left. -/
def dlTokenLive : DownloadToken :=
  { id := 1, purchaseId := 5, token := "dl_live", expiresAt := 1000000,
    usedAt := none, downloadCount := 0, maxDownloads := 3 }

/-- An expired token with all three downloads left. -/
def dlTokenExpired : DownloadToken :=
  { id := 2, purchaseId := 5, token := "dl_exp", expiresAt := 5,
    usedAt := none, downloadCount := 0, maxDownloads := 3 }

/-- A live token whose download limit is already reached. -/
def dlTokenUsedUp : DownloadToken :=
  { id := 4, purchaseId := 5, token := "dl_full", expiresAt := 1000000,
    usedAt := some 1, downloadCount := 3, maxDownloads := 3 }

/-- The download fixture world. -/
def dlWorld : World :=
  { emptyWorld with
    artworks := [dlArtwork], purchases := [dlPurchase],
    tokens := [dlTokenLive, dlTokenExpired, dlTokenUsedUp],
    nextPurchaseId := 6, nextTokenRowId := 5 }

/-- C5 witness: five redemptions of the same live 3-download token keep every
counter within its limit, and redeeming the expired token at time 100 is
Gone with no state change. -/
theorem C5_witness :
    (∀ t ∈ (runDownloads dlWorld [("dl_live", 10), ("dl_live", 20),
        ("dl_live", 30), ("dl_live", 40), ("dl_live", 50)]).tokens,
      t.downloadCount ≤ t.maxDownloads) ∧
    downloadGET dlWorld "dl_exp" 100 = (.gone, dlWorld) := by
  constructor
  · exact (C5_download_limit_and_expiry_invariant dlWorld (by decide)
      (by decide)).1 [("dl_live", 10), ("dl_live", 20), ("dl_live", 30),
        ("dl_live", 40), ("dl_live", 50)]
  · exact (C5_download_limit_and_expiry_invariant dlWorld (by decide)
      (by decide)).2 "dl_exp" 100 dlTokenExpired dlPurchase dlArtwork
      (by decide) (by decide)

/-- C6: with referential integrity (every token row joins to its purchase and
artwork, as the schema's foreign keys with ON DELETE CASCADE guarantee), the
download endpoint answers in exactly this precedence: unknown token → 404
NotFound; known but expired → 410 Gone; known, unexpired, at its limit →
429; otherwise it increments the count, stamps used_at, and redirects to the
artwork's image URL. -/
theorem C6_download_precedence (w : World) (tok : String) (now : Nat)
    (hRI : ∀ t ∈ w.tokens,
      ((findPurchase w t.purchaseId).bind
        (fun p => findArtwork w p.artworkId)).isSome = true) :
    (findToken w tok = none →
      downloadGET w tok now = (.notFound, w) ∧
      DownloadResponse.status .notFound = 404) ∧
    (∀ t, findToken w tok = some t → t.expiresAt < now →
      downloadGET w tok now = (.gone, w) ∧
      DownloadResponse.status .gone = 410) ∧
    (∀ t, findToken w tok = some t → ¬ t.expiresAt < now →
      t.downloadCount ≥ t.maxDownloads →
      downloadGET w tok now = (.tooManyDownloads, w) ∧
      DownloadResponse.status .tooManyDownloads = 429) ∧
    (∀ t, findToken w tok = some t → ¬ t.expiresAt < now →
      t.downloadCount < t.maxDownloads →
      ∃ p a, findPurchase w t.purchaseId = some p ∧
        findArtwork w p.artworkId = some a ∧
        downloadGET w tok now = (.redirect a.imageUrl,
          { w with tokens := w.tokens.map (fun u =>
              if u.id = t.id then
                { u with downloadCount := t.downloadCount + 1,
                         usedAt := some (t.usedAt.getD now) }
              else u) })) := by
  have hjoin : ∀ t, findToken w tok = some t →
      ∃ p a, findPurchase w t.purchaseId = some p ∧
        findArtwork w p.artworkId = some a ∧
        lookupTokenJoined w tok = some (t, p, a) := by
    intro t hft
    have hri := hRI t (List.mem_of_find?_eq_some hft)
    obtain ⟨p, hp⟩ : ∃ p, findPurchase w t.purchaseId = some p := by
      rcases hq : findPurchase w t.purchaseId with _ | p
      · rw [hq] at hri
        simp at hri
      · exact ⟨p, rfl⟩
    obtain ⟨a, ha⟩ : ∃ a, findArtwork w p.artworkId = some a := by
      rw [hp] at hri
      rw [Option.some_bind] at hri
      rcases hq : findArtwork w p.artworkId with _ | a
      · rw [hq] at hri
        simp at hri
      · exact ⟨a, rfl⟩
    exact ⟨p, a, hp, ha, by unfold lookupTokenJoined; simp [hft, hp, ha]⟩
  refine ⟨?_, ?_, ?_, ?_⟩
  · intro hft
    have hl : lookupTokenJoined w tok = none := by
      unfold lookupTokenJoined
      simp [hft]
    exact ⟨by unfold downloadGET; simp [hl], rfl⟩
  · intro t hft hexp
    obtain ⟨p, a, hp, ha, hl⟩ := hjoin t hft
    exact ⟨by unfold downloadGET; simp [hl, hexp], rfl⟩
  · intro t hft hexp hcnt
    obtain ⟨p, a, hp, ha, hl⟩ := hjoin t hft
    exact ⟨by unfold downloadGET; simp [hl, hexp, hcnt], rfl⟩
  · intro t hft hexp hcnt
    obtain ⟨p, a, hp, ha, hl⟩ := hjoin t hft
    have hnotge : ¬ t.downloadCount ≥ t.maxDownloads := by omega
    refine ⟨p, a, hp, ha, ?_⟩
    unfold downloadGET
    simp [hl, hexp, hnotge]

/-- C6 witness: the theorem applied at the fixture world to an unknown token
and to the exhausted token. -/
theorem C6_witness :
    downloadGET dlWorld "dl_missing" 10 = (.notFound, dlWorld) ∧
    downloadGET dlWorld "dl_full" 10 = (.tooManyDownloads, dlWorld) := by
  constructor
  · exact ((C6_download_precedence dlWorld "dl_missing" 10 (by decide)).1
      (by decide)).1
  · exact ((C6_download_precedence dlWorld "dl_full" 10
      (by decide)).2.2.1 dlTokenUsedUp (by decide) (by decide) (by decide)).1

/-- The nft-field update of a purchase row preserves its id and
payment_status. -/
theorem map_idStatus_nft_update (l : List Purchase) (pid tid : Nat)
    (tx : String) :
    (l.map (fun p => if p.id = pid then
        { p with nftMinted := true, nftTokenId := some tid,
                 nftTxHash := some tx }
      else p)).map (fun p => (p.id, p.paymentStatus)) =
    l.map (fun p => (p.id, p.paymentStatus)) := by
  rw [List.map_map]
  apply List.map_congr_left
  intro p _
  by_cases h : p.id = pid <;> simp [h]

/-- C7: whatever the two contract calls do, the detached mint job never
modifies any purchase's id or payment_status; when it fails terminally a
failure record bearing the purchase id and the thrown message is appended to
nft_minting_errors and the purchases table is untouched; when it succeeds no
failure record is written and the only purchase-row change is setting
nft_minted, nft_token_id and nft_tx_hash on the job's purchase. -/
theorem C7_mint_never_touches_payment_status (w : World) (mf : MintFaults)
    (job : MintJob) :
    ((runQueuedMint w mf job).purchases.map
        (fun p => (p.id, p.paymentStatus))) =
      (w.purchases.map (fun p => (p.id, p.paymentStatus))) ∧
    (∀ msg, mintFailure job mf = some msg →
      (runQueuedMint w mf job).mintErrors =
        w.mintErrors ++ [{ purchaseId := job.purchaseId, errorMessage := msg,
                           sessionId := job.sessionId }] ∧
      (runQueuedMint w mf job).purchases = w.purchases) ∧
    (mintFailure job mf = none →
      (runQueuedMint w mf job).mintErrors = w.mintErrors ∧
      ∃ tid tx, mf.mintTokenResult = .ok tx ∧
        (runQueuedMint w mf job).purchases = w.purchases.map (fun p =>
          if p.id = job.purchaseId then
            { p with nftMinted := true, nftTokenId := some tid,
                     nftTxHash := some tx }
          else p)) := by
  refine ⟨?_, ?_, ?_⟩
  · rcases hA : job.artworkTokenId with _ | tid0 <;>
      rcases hC : mf.createTokenResult with msgC | tidC <;>
      rcases hM : mf.mintTokenResult with msgM | tx <;>
      simp [runQueuedMint, hA, hC, hM, map_idStatus_nft_update] <;>
      (intro a _; by_cases h : a.id = job.purchaseId <;> simp [h])
  · intro msg hmsg
    rcases hA : job.artworkTokenId with _ | tid0 <;>
      rcases hC : mf.createTokenResult with msgC | tidC <;>
      rcases hM : mf.mintTokenResult with msgM | tx <;>
      simp [mintFailure, hA, hC, hM] at hmsg <;>
      subst hmsg <;>
      simp [runQueuedMint, hA, hC, hM]
  · intro hnone
    rcases hA : job.artworkTokenId with _ | tid0 <;>
      rcases hC : mf.createTokenResult with msgC | tidC <;>
      rcases hM : mf.mintTokenResult with msgM | tx <;>
      simp [mintFailure, hA, hC, hM] at hnone
    · exact ⟨by simp [runQueuedMint, hA, hC, hM],
        tidC, tx, rfl, by simp [runQueuedMint, hA, hC, hM]⟩
    · exact ⟨by simp [runQueuedMint, hA, hC, hM],
        tid0, tx, rfl, by simp [runQueuedMint, hA, hC, hM]⟩
    · exact ⟨by simp [runQueuedMint, hA, hC, hM],
        tid0, tx, rfl, by simp [runQueuedMint, hA, hC, hM]⟩

/-- A purchase awaiting its NFT. -/
def c7Purchase : Purchase :=
  { id := 11, artworkId := 3, buyerEmail := "z", buyerWallet := some "0xc",
    paymentIntentId := "pi_m", sessionId := "cs_mint", amountPaidCents := 900,
    paymentStatus := .completed, nftMinted := false, nftTokenId := none,
    nftTxHash := none, downloadSent := true }

/-- The world the mint job runs against. -/
def c7World : World :=
  { emptyWorld with
    artworks := [dlArtwork], purchases := [c7Purchase],
    nextPurchaseId := 12 }

/-- The queued job for that purchase; the artwork has no token id yet. -/
def c7Job : MintJob :=
  { purchaseId := 11, artworkId := 3, artworkTokenId := none,
    artistWallet := "0xb", maxEditions := 3, metadataUrl := "ipfs://wavem",
    buyerWalletAddress := "0xc", sessionId := "cs_mint" }

/-- A script where contract token creation throws. -/
def c7FailFaults : MintFaults :=
  { createTokenResult := .error "insufficient funds",
    mintTokenResult := .ok "0xhash" }

/-- C7 witness: the theorem applied to a concrete terminally-failing job:
the failure record is written and the purchase row is untouched. -/
theorem C7_witness :
    (runQueuedMint c7World c7FailFaults c7Job).mintErrors =
      [{ purchaseId := 11, errorMessage := "insufficient funds",
         sessionId := "cs_mint" }] ∧
    (runQueuedMint c7World c7FailFaults c7Job).purchases =
      c7World.purchases := by
  have h := (C7_mint_never_touches_payment_status c7World c7FailFaults
    c7Job).2.1 "insufficient funds" (by decide)
  exact ⟨h.1, h.2⟩

/-- The conditional edition increment changes no artwork id, so searching by
id through the increment is searching by id. -/
theorem find?_artwork_increment (l : List Artwork) (j i : Nat) :
    List.find? ((fun a : Artwork => a.id == i) ∘ (fun a =>
      if a.id = j ∧ a.currentEditions < a.maxEditions then
        { a with currentEditions := a.currentEditions + 1 }
      else a)) l =
    List.find? (fun a => a.id == i) l := by
  have hpred : ((fun a : Artwork => a.id == i) ∘ (fun a =>
      if a.id = j ∧ a.currentEditions < a.maxEditions then
        { a with currentEditions := a.currentEditions + 1 }
      else a)) = (fun a => a.id == i) := by
    funext a
    by_cases h : a.id = j ∧ a.currentEditions < a.maxEditions <;> simp [h]
  rw [hpred]

/-- The download-sent update changes no session id. -/
theorem any_sessionId_after_setSent (l : List Purchase) (pid : Nat)
    (sid : String) :
    ((l.map (fun p => if p.id = pid then { p with downloadSent := true }
      else p)).any (fun p => p.sessionId == sid)) =
    (l.any (fun p => p.sessionId == sid)) := by
  rw [List.any_map]
  congr 1
  funext p
  by_cases h : p.id = pid <;> simp [h]

/-- C3 (amended): for a fresh, well-formed checkout event the inserted
Purchase row is compensated (deleted) exactly when one of the steps up to and
including the artwork lookup fails: a purchase-insert error (nothing to
delete), an edition-increment error, a download-token insert error, or — one
step AFTER the DownloadToken row exists — a failed artwork lookup.  Once the
artwork lookup succeeds, no email-transport behaviour and no wallet
configuration removes the Purchase: the webhook reports success and the row
survives. -/
theorem C3_amended_compensation_boundary (w : World) (f : Faults) (now : Nat)
    (freshToken : String) (s : Session) (be : String)
    (hbe : s.buyerEmail = some be)
    (hid : s.artworkIdMeta.getD 0 ≠ 0)
    (hfresh : w.purchases.any (fun p => p.sessionId == s.id) = false)
    (hids : ∀ p ∈ w.purchases, p.id ≠ w.nextPurchaseId) :
    (f.purchaseInsertError = none → f.incrementError = none →
      f.tokenInsertError = none →
      (findArtwork w (s.artworkIdMeta.getD 0)).isSome = true →
      (processEventWithTransaction w f now freshToken
        (.checkoutSessionCompleted s)).1 = WResult.okResult ∧
      ((processEventWithTransaction w f now freshToken
        (.checkoutSessionCompleted s)).2.purchases.any
          (fun p => p.sessionId == s.id)) = true) ∧
    (∀ msg, f.purchaseInsertError = some msg →
      (processEventWithTransaction w f now freshToken
        (.checkoutSessionCompleted s)).2 = w ∧
      (processEventWithTransaction w f now freshToken
        (.checkoutSessionCompleted s)).1.received = false) ∧
    (∀ msg, f.purchaseInsertError = none → f.incrementError = some msg →
      (processEventWithTransaction w f now freshToken
        (.checkoutSessionCompleted s)).2.purchases = w.purchases ∧
      (processEventWithTransaction w f now freshToken
        (.checkoutSessionCompleted s)).1.received = false) ∧
    (∀ msg, f.purchaseInsertError = none → f.incrementError = none →
      f.tokenInsertError = some msg →
      (processEventWithTransaction w f now freshToken
        (.checkoutSessionCompleted s)).2.purchases = w.purchases ∧
      (processEventWithTransaction w f now freshToken
        (.checkoutSessionCompleted s)).1.received = false) ∧
    (f.purchaseInsertError = none → f.incrementError = none →
      f.tokenInsertError = none →
      findArtwork w (s.artworkIdMeta.getD 0) = none →
      (processEventWithTransaction w f now freshToken
        (.checkoutSessionCompleted s)).1 =
        { received := false, error := some "Artwork not found" } ∧
      (processEventWithTransaction w f now freshToken
        (.checkoutSessionCompleted s)).2.purchases = w.purchases) := by
  refine ⟨?_, ?_, ?_, ?_, ?_⟩
  · intro h1 h2 h3 hsome
    obtain ⟨a0, ha0⟩ := Option.isSome_iff_exists.mp hsome
    have ha0' : w.artworks.find?
        (fun a => a.id == s.artworkIdMeta.getD 0) = some a0 := ha0
    constructor
    · simp [processEventWithTransaction, hbe, hid, hfresh, h1, h2, h3,
        incrementArtworkEditions, findArtwork, find?_artwork_increment, ha0']
    · rcases hw : s.buyerWalletAddress with _ | wal <;>
        by_cases hres : (sendDownloadEmailWithRetry
          (composedEmailOutcomes f.transport)).result <;>
        simp [processEventWithTransaction, hbe, hid, hfresh, h1, h2, h3,
          incrementArtworkEditions, findArtwork, find?_artwork_increment,
          ha0', setDownloadSent, any_sessionId_after_setSent,
          List.any_append, hw, hres]
  · intro msg h5
    simp [processEventWithTransaction, hbe, hid, hfresh, h5]
  · intro msg h1 h2
    constructor
    · simp [processEventWithTransaction, hbe, hid, hfresh, h1, h2,
        deletePurchase]
      exact hids
    · simp [processEventWithTransaction, hbe, hid, hfresh, h1, h2]
  · intro msg h1 h2 h3
    constructor
    · simp [processEventWithTransaction, hbe, hid, hfresh, h1, h2, h3,
        incrementArtworkEditions, deletePurchase]
      exact hids
    · simp [processEventWithTransaction, hbe, hid, hfresh, h1, h2, h3]
  · intro h1 h2 h3 hnone
    have hnone' : w.artworks.find?
        (fun a => a.id == s.artworkIdMeta.getD 0) = none := hnone
    constructor
    · simp [processEventWithTransaction, hbe, hid, hfresh, h1, h2, h3,
        incrementArtworkEditions, findArtwork, find?_artwork_increment,
        hnone']
    · simp [processEventWithTransaction, hbe, hid, hfresh, h1, h2, h3,
        incrementArtworkEditions, findArtwork, find?_artwork_increment,
        hnone', deletePurchase]
      exact hids

/-- A world holding the fixture artwork and nothing else. -/
def c3OkWorld : World :=
  { emptyWorld with artworks := [dlArtwork] }

/-- A well-formed checkout session for artwork 3, with a wallet. -/
def c3OkSession : Session :=
  { id := "cs_ok", paymentIntent := "pi_ok", amountTotal := some 2000,
    artworkIdMeta := some 3, buyerEmail := some "b",
    buyerWalletAddress := some "0xd" }

/-- A delivery where every storage call succeeds but every email transport
attempt fails. -/
def failMailFaults : Faults :=
  { purchaseInsertError := none, incrementError := none,
    tokenInsertError := none, ledgerInsertFails := false,
    transport := fun _ => .transportError }

/-- C3 witness: the amended theorem applied to a concrete run whose email
delivery fails on every attempt — the purchase still survives and the
webhook reports success. -/
theorem C3_witness :
    (processEventWithTransaction c3OkWorld failMailFaults 0 "dl_ok"
        (.checkoutSessionCompleted c3OkSession)).1 = WResult.okResult ∧
    ((processEventWithTransaction c3OkWorld failMailFaults 0 "dl_ok"
        (.checkoutSessionCompleted c3OkSession)).2.purchases.any
          (fun p => p.sessionId == c3OkSession.id)) = true := by
  have h := (C3_amended_compensation_boundary c3OkWorld failMailFaults 0
    "dl_ok" c3OkSession "b" rfl (by decide) (by decide) (by decide)).1
    rfl rfl rfl (by decide)
  exact ⟨h.1, h.2⟩

end ImNotArt
